import Mathlib

/-!
Verification of the BLE advertising firmware core (`src/main.rs`):
the TIMER0 scheduling service (`cfg_timer`), the interrupt handlers
(`radio`, `radio_timer`), the boot-time `init` sequence and the
hardware timer configuration it installs.

Machine integers are modelled as `Nat` with explicit `% 2^32` where the
Rust code performs `u32` arithmetic.
-/

/-- `core::time::Duration`: whole seconds plus sub-second nanoseconds
(`nanos < 10^9` is an invariant of the Rust type, carried here as a
hypothesis where needed). -/
structure Duration where
  secs : Nat
  nanos : Nat
  deriving Repr, DecidableEq

/-- `Duration::as_secs`. -/
def Duration.as_secs (d : Duration) : Nat := d.secs

/-- `Duration::subsec_micros` (sub-second nanoseconds divided by 1000). -/
def Duration.subsec_micros (d : Duration) : Nat := d.nanos / 1000

/-- `Duration::from_millis`. -/
def Duration.from_millis (ms : Nat) : Duration :=
  ⟨ms / 1000, (ms % 1000) * 1000000⟩

/-- Total microseconds encoded by a `Duration` (exact, unbounded). -/
def Duration.total_micros (d : Duration) : Nat :=
  d.secs * 1000000 + d.nanos / 1000

/-- `u32::MAX`. -/
def U32_MAX : Nat := 2 ^ 32 - 1

/-- The observable register state of the nRF51 TIMER0 peripheral used by
`main.rs`: the CC[0] compare register, the internal counter, the
EVENTS_COMPARE[0] flag and whether the timer is started. -/
structure Timer where
  cc0 : Nat
  counter : Nat
  eventCompare0 : Bool
  running : Bool
  deriving Repr, DecidableEq

/-- The `u32` compare value computed by `cfg_timer`:
`(duration.as_secs() as u32) * 1_000_000 + duration.subsec_micros()`,
with each `u32` operation taken modulo `2^32`. -/
def compare_micros (d : Duration) : Nat :=
  (d.as_secs % 2 ^ 32 * 1000000 + d.subsec_micros) % 2 ^ 32

/-- `fn cfg_timer(t: &nrf51::TIMER0, duration: Option<Duration>)`
(src/main.rs lines 144-158).  `none` as a result models the
process-fatal `assert!` failure.
- `Some(duration)`: asserts
  `duration.as_secs() < ((u32::MAX - duration.subsec_micros()) / 1_000_000) as u64`,
  writes the compare value to CC[0], resets EVENTS_COMPARE[0],
  fires TASKS_CLEAR (counter to 0) and TASKS_START.
- `None`: fires TASKS_STOP, TASKS_CLEAR, and resets EVENTS_COMPARE[0]. -/
def cfg_timer (t : Timer) (duration : Option Duration) : Option Timer :=
  match duration with
  | some duration =>
    if duration.as_secs < (U32_MAX - duration.subsec_micros) / 1000000 then
      some { t with
        cc0 := compare_micros duration
        eventCompare0 := false
        counter := 0
        running := true }
    else
      none
  | none =>
    some { t with running := false, counter := 0, eventCompare0 := false }

/-- A sequence of `cfg_timer` calls against the same hardware timer,
aborting (as the process would) at the first failed assertion. -/
def cfg_timer_seq (t : Timer) (calls : List (Option Duration)) : Option Timer :=
  calls.foldlM cfg_timer t

/-- TIMER0 mode bits written by `init` (src/main.rs lines 77-85):
BITMODE, PRESCALER, INTENSET.COMPARE0 and the two SHORTS. -/
structure TimerConfig where
  bitmode : Nat
  prescaler : Nat
  intenCompare0 : Bool
  shortCompare0Clear : Bool
  shortCompare0Stop : Bool
  deriving Repr, DecidableEq

/-- The TIMER0 configuration installed by `init`: 32-bit mode,
prescaler 4, COMPARE0 interrupt enabled, COMPARE0_CLEAR and
COMPARE0_STOP shortcuts enabled. -/
def init_timer_config : TimerConfig :=
  { bitmode := 32
    prescaler := 4
    intenCompare0 := true
    shortCompare0Clear := true
    shortCompare0Stop := true }

/-- Timer tick frequency in Hz: the nRF51 timer runs from a 16 MHz base
clock divided by `2 ^ PRESCALER`. -/
def TimerConfig.tick_freq_hz (c : TimerConfig) : Nat :=
  16000000 / 2 ^ c.prescaler

/-- One tick of the hardware timer (nRF51 TIMER semantics): a started
timer increments its counter modulo `2 ^ bitmode`; when the counter
reaches CC[0], EVENTS_COMPARE[0] is set, an interrupt is raised if
enabled, and the enabled shortcuts clear and/or stop the timer.  The
returned `Bool` is whether an interrupt was raised. -/
def tick (c : TimerConfig) (t : Timer) : Timer × Bool :=
  if t.running then
    let counter := (t.counter + 1) % 2 ^ c.bitmode
    if counter = t.cc0 % 2 ^ c.bitmode then
      ({ t with
          counter := if c.shortCompare0Clear then 0 else counter
          running := if c.shortCompare0Stop then false else t.running
          eventCompare0 := true },
        c.intenCompare0)
    else
      ({ t with counter := counter }, false)
  else
    (t, false)

/-- `n` successive timer ticks; the `Bool` records whether any of them
raised an interrupt. -/
def tickN (c : TimerConfig) : Nat → Timer → Timer × Bool
  | 0, t => (t, false)
  | n + 1, t =>
    let s := tick c t
    let r := tickN c n s.1
    (r.1, s.2 || r.2)

/-- Modelled from the spec: `AddressKind` of module `ble::link`
(not under src/) — "6 bytes + AddressKind {Public, Random}". -/
inductive AddressKind where
  | public
  | random
  deriving Repr, DecidableEq

/-- Modelled from the spec: `DeviceAddress` of module `ble::link`
(not under src/) — 48-bit address plus its kind, immutable. -/
structure DeviceAddress where
  bytes : List (Fin 256)
  kind : AddressKind
  deriving Repr, DecidableEq

/-- Modelled from the spec: `DeviceAddress::new(bytes, kind)` — "pure
construction, no validation beyond fixed byte width". -/
def DeviceAddress.new (bytes : List (Fin 256)) (kind : AddressKind) : DeviceAddress :=
  ⟨bytes, kind⟩

/-- Modelled from the spec: `AdStructure` of module
`ble::link::ad_structure` (not under src/) — "tagged variant —
Flags(...), CompleteLocalName(text)".  Only the two variants used by
`main.rs` are needed. -/
inductive AdStructure where
  | flags (discoverable : Bool) (brEdrSupported : Bool)
  | completeLocalName (name : String)
  deriving Repr, DecidableEq

/-- Modelled from the spec: the link-layer behavioral state — "`Idle`
(no radio activity scheduled) and `Advertising{interval, payload}`". -/
inductive LLState where
  | idle
  | advertising (interval : Duration) (payload : List AdStructure)
  deriving Repr, DecidableEq

/-- Modelled from the spec: `LinkLayer` of module `ble::link` (not under
src/) — "holds DeviceAddress, current behavioral state (advertising
interval + AD payload, or idle), and role-specific counters (e.g.,
advertising event counter)". -/
structure LinkLayer where
  addr : DeviceAddress
  state : LLState
  advCounter : Nat
  deriving Repr, DecidableEq

/-- Modelled from the spec: `LinkLayer::new` — "Created once at
startup", starting out idle. -/
def LinkLayer.new (addr : DeviceAddress) : LinkLayer :=
  ⟨addr, .idle, 0⟩

/-- Modelled from the spec: `LinkLayer::start_advertise` (module `ble`
not under src/) — "switches state to Advertising". -/
def LinkLayer.start_advertise (ll : LinkLayer) (interval : Duration)
    (payload : List AdStructure) : LinkLayer :=
  { ll with state := .advertising interval payload }

/-- Modelled from the spec: `on_timer_event` (module `ble` not under
src/) — "Advances the advertising event counter, reconstructs/reuses
the PDU, and requests a new TX. Returns the next deadline (the
advertising interval ...)". -/
def LinkLayer.on_timer_event (ll : LinkLayer) : LinkLayer × Option Duration :=
  match ll.state with
  | .idle => (ll, none)
  | .advertising interval _ =>
    ({ ll with advCounter := ll.advCounter + 1 }, some interval)

/-- Modelled from the spec: `BleRadio` of module `radio` (not under
src/) — the driver "owns the hardware radio peripheral and a fixed
transmit packet buffer". -/
structure BleRadio where
  txBuf : List (Fin 256)
  deriving Repr, DecidableEq

/-- Modelled from the spec: `BleRadio::new(radio_peripheral,
factory_info, tx_buffer)` — "takes ownership of the peripheral and
buffer". -/
def BleRadio.new (txBuf : List (Fin 256)) : BleRadio :=
  ⟨txBuf⟩

/-- Modelled from the spec: `Baseband` of module `radio` (not under
src/) — "holds Radio Driver, RX PacketBuffer, LinkLayer". -/
structure Baseband where
  radio : BleRadio
  rxBuf : List (Fin 256)
  ll : LinkLayer
  deriving Repr, DecidableEq

/-- Modelled from the spec: `Baseband::new`. -/
def Baseband.new (radio : BleRadio) (rxBuf : List (Fin 256)) (ll : LinkLayer) : Baseband :=
  ⟨radio, rxBuf, ll⟩

/-- Modelled from the spec: `Baseband::update` (module `radio` not
under src/) — "invoked when the hardware timer fires; forwards to
`on_timer_event` and returns the resulting deadline". -/
def Baseband.update (bb : Baseband) : Baseband × Option Duration :=
  let r := bb.ll.on_timer_event
  ({ bb with ll := r.1 }, r.2)

/-- `fn radio(...)` (src/main.rs lines 126-130), the RADIO interrupt
handler, with the value returned by `Baseband::interrupt()` abstracted
as the parameter `interruptResult` (module `radio` is not under src/):
`if let Some(new_timeout) = res.BASEBAND.interrupt() {
cfg_timer(&res.BLE_TIMER, Some(new_timeout)); }`. -/
def radio_handler (interruptResult : Option Duration) (t : Timer) : Option Timer :=
  match interruptResult with
  | some new_timeout => cfg_timer t (some new_timeout)
  | none => some t

/-- `fn radio_timer(...)` (src/main.rs lines 132-136), the TIMER0
interrupt handler: runs `Baseband::update()` and passes its result to
`cfg_timer` unconditionally.  State threaded explicitly: the baseband
and the timer registers. -/
def radio_timer_handler (bb : Baseband) (t : Timer) : Option (Baseband × Timer) :=
  let r := bb.update
  (cfg_timer t r.2).map fun t2 => (r.1, t2)

/-- The two statically allocated packet buffers of the `app!` block
(src/main.rs lines 41-42): `static BLE_TX_BUF: PacketBuffer =
[0; MAX_PDU_SIZE + 1]` and likewise `BLE_RX_BUF`.  `MAX_PDU_SIZE` lives
in the unseen `ble` module, so it is a parameter. -/
def mk_packet_buffer (maxPduSize : Nat) : List (Fin 256) :=
  List.replicate (maxPduSize + 1) 0

/-- The advertising interval passed to `start_advertise` in `init`
(src/main.rs line 101): `Duration::from_millis(100)`. -/
def INIT_ADV_INTERVAL : Duration := Duration.from_millis 100

/-- The AD structures passed to `start_advertise` in `init`
(src/main.rs lines 102-103). -/
def INIT_AD_STRUCTURES : List AdStructure :=
  [.flags true false, .completeLocalName "CONCVRRENS CERTA CELERIS"]

/-- The first-wakeup duration programmed by `init` (src/main.rs
line 107): `cfg_timer(&p.device.TIMER0, Some(Duration::from_millis(1)))`,
commented "Queue first baseband update". -/
def INIT_FIRST_WAKEUP : Duration := Duration.from_millis 1

/-- The core of `fn init` (src/main.rs lines 100-117), after clock and
TIMER0 mode setup: build the link layer from the factory device
address, `start_advertise(Duration::from_millis(100), ...)`, program
the first wakeup with `cfg_timer(TIMER0, Some(from_millis(1)))`, and
construct the `Baseband` late resource from
`BleRadio::new(RADIO, FICR, BLE_TX_BUF)`, `BLE_RX_BUF` and the link
layer.  Returns `none` on the fatal assertion inside `cfg_timer`. -/
def init_seq (deviceAddr : DeviceAddress) (t : Timer)
    (txBuf rxBuf : List (Fin 256)) : Option (Baseband × Timer) :=
  let ll := LinkLayer.new deviceAddr
  let ll := ll.start_advertise INIT_ADV_INTERVAL INIT_AD_STRUCTURES
  (cfg_timer t (some INIT_FIRST_WAKEUP)).map fun t2 =>
    (Baseband.new (BleRadio.new txBuf) rxBuf ll, t2)

/-! ## Helper lemmas -/

/-- The `assert!` condition of `cfg_timer` is equivalent to the total
microsecond count being at most `u32::MAX - 1_000_000` (the strict
inequality over an integer division costs exactly one second of
headroom below `u32::MAX`). -/
theorem cfg_timer_check_iff (d : Duration) :
    d.as_secs < (U32_MAX - d.subsec_micros) / 1000000 ↔
      d.total_micros ≤ U32_MAX - 1000000 := by
  simp only [Duration.as_secs, Duration.subsec_micros, Duration.total_micros, U32_MAX]
  omega

/-- When the assertion passes, the state written by
`cfg_timer(Some(d))` is fully determined by `d`. -/
theorem cfg_timer_some_state (t : Timer) (d : Duration)
    (h : d.as_secs < (U32_MAX - d.subsec_micros) / 1000000) :
    cfg_timer t (some d) = some ⟨compare_micros d, 0, false, true⟩ := by
  cases t
  simp [cfg_timer, h]

/-- Any successful `cfg_timer(Some(d))` produces exactly that state. -/
theorem cfg_timer_some_eq (t tf : Timer) (d : Duration)
    (h : cfg_timer t (some d) = some tf) :
    tf = ⟨compare_micros d, 0, false, true⟩ := by
  by_cases hc : d.as_secs < (U32_MAX - d.subsec_micros) / 1000000
  · rw [cfg_timer_some_state t d hc] at h
    injection h with h2
    exact h2.symm
  · have hn : cfg_timer t (some d) = none := by simp [cfg_timer, hc]
    rw [hn] at h
    exact Option.noConfusion h

/-- A stopped timer is inert: a tick changes nothing and raises no
interrupt. -/
theorem tick_stopped (c : TimerConfig) (t : Timer) (h : t.running = false) :
    tick c t = (t, false) := by
  simp [tick, h]

/-- A stopped timer stays inert over any number of ticks. -/
theorem tickN_stopped (c : TimerConfig) (t : Timer) (h : t.running = false) :
    ∀ n, tickN c n t = (t, false) := by
  intro n
  induction n with
  | zero => rfl
  | succ n ih => simp [tickN, tick_stopped c t h, ih]

/-- `cfg_timer` with the 1 ms first-wakeup duration used by `init`
always succeeds and programs a compare value of 1000 µs. -/
theorem init_cfg_timer_eval (t : Timer) :
    cfg_timer t (some INIT_FIRST_WAKEUP) =
      some { t with cc0 := 1000, counter := 0, eventCompare0 := false, running := true } := rfl

/-! ## Claim theorems -/

/-- C1 counterexample: the claim says a duration encoding exactly the
maximum representable microsecond value (`2^32 - 1` µs, i.e. 4294 s +
967 295 000 ns) succeeds, but `cfg_timer`'s strict-inequality assertion
rejects it: the call fails. -/
theorem C1_max_micros_rejected :
    (Duration.mk 4294 967295000).total_micros = U32_MAX ∧
    (Duration.mk 4294 967295000).nanos < 1000000000 ∧
    cfg_timer ⟨0, 0, false, false⟩ (some ⟨4294, 967295000⟩) = none := by
  refine ⟨by decide, by decide, ?_⟩
  simp [cfg_timer]
  decide

/-- C1 (amended): `cfg_timer(Some(duration))` fails with the fatal
assertion exactly when the duration's total microseconds exceed
`u32::MAX - 1_000_000`; the strict `<` over the integer division leaves
one second of headroom, so the largest accepted duration encodes
`2^32 - 1 - 10^6` µs and the exact `2^32 - 1` µs bound already fails. -/
theorem C1_cfg_timer_fails_iff_over_bound (t : Timer) (d : Duration)
    (h : d.nanos < 1000000000) :
    (cfg_timer t (some d)).isSome = true ↔ d.total_micros ≤ U32_MAX - 1000000 := by
  by_cases hc : d.as_secs < (U32_MAX - d.subsec_micros) / 1000000
  · rw [cfg_timer_some_state t d hc]
    simpa using (cfg_timer_check_iff d).mp hc
  · have hn : cfg_timer t (some d) = none := by simp [cfg_timer, hc]
    rw [hn]
    simp only [Option.isSome_none, Bool.false_eq_true, false_iff]
    exact fun hle => hc ((cfg_timer_check_iff d).mpr hle)

/-- C1 witness: the boundary duration `2^32 - 1 - 10^6` µs
(4293 s + 967 295 000 ns) is accepted. -/
theorem C1_witness :
    (Duration.mk 4293 967295000).nanos < 1000000000 ∧
    ((cfg_timer ⟨0, 0, false, false⟩ (some ⟨4293, 967295000⟩)).isSome = true ↔
      (Duration.mk 4293 967295000).total_micros ≤ U32_MAX - 1000000) :=
  ⟨by decide, C1_cfg_timer_fails_iff_over_bound ⟨0, 0, false, false⟩ ⟨4293, 967295000⟩ (by decide)⟩

/-- C4: when the overflow assertion passes, the compare value written to
CC[0] is exactly `as_secs * 1_000_000 + subsec_micros` — the `u32`
computation does not wrap. -/
theorem C4_compare_value_exact (t : Timer) (d : Duration)
    (hn : d.nanos < 1000000000)
    (hc : d.as_secs < (U32_MAX - d.subsec_micros) / 1000000) :
    cfg_timer t (some d) = some ⟨d.as_secs * 1000000 + d.subsec_micros, 0, false, true⟩ := by
  rw [cfg_timer_some_state t d hc]
  have : compare_micros d = d.as_secs * 1000000 + d.subsec_micros := by
    simp only [compare_micros, Duration.as_secs, Duration.subsec_micros, U32_MAX] at hc ⊢
    omega
  rw [this]

/-- C4 witness: a 2.5 s duration programs exactly 2 500 000 µs. -/
theorem C4_witness :
    (Duration.mk 2 500000000).nanos < 1000000000 ∧
    (Duration.mk 2 500000000).as_secs <
      (U32_MAX - (Duration.mk 2 500000000).subsec_micros) / 1000000 ∧
    cfg_timer ⟨0, 0, false, false⟩ (some ⟨2, 500000000⟩) =
      some ⟨2 * 1000000 + 500000, 0, false, true⟩ :=
  ⟨by decide, by decide,
    C4_compare_value_exact ⟨0, 0, false, false⟩ ⟨2, 500000000⟩ (by decide) (by decide)⟩

/-- C5: `cfg_timer(None)` always succeeds, stops the timer, clears the
counter and acknowledges the stale compare-event flag; the resulting
timer state raises no further compare event over any number of ticks
under the configuration installed by `init`. -/
theorem C5_cfg_timer_none_stops (t : Timer) :
    cfg_timer t none = some { t with running := false, counter := 0, eventCompare0 := false } ∧
    ∀ n, tickN init_timer_config n
        { t with running := false, counter := 0, eventCompare0 := false } =
      ({ t with running := false, counter := 0, eventCompare0 := false }, false) := by
  refine ⟨rfl, ?_⟩
  exact tickN_stopped init_timer_config _ rfl

/-- C2 counterexample: at the startup configuration of `init`
(`start_advertise(Duration::from_millis(100), ...)`), the first
programmed timer deadline is the hard-coded 1 ms first wakeup
(CC[0] = 1000 µs), not the 100 000 µs advertising interval. -/
theorem C2_first_deadline_not_interval :
    (init_seq (DeviceAddress.new [] .public) ⟨0, 0, false, false⟩ [] []).map
        (fun r => r.2.cc0) = some 1000 ∧
    INIT_ADV_INTERVAL.total_micros = 100000 ∧
    (1000 : Nat) ≠ 100000 := by
  refine ⟨rfl, by decide, by decide⟩

/-- C2 (amended): after `start_advertise` at startup, `init` requests
the initial wakeup after a fixed 1 millisecond ("Queue first baseband
update"), independent of the configured advertising interval; the link
layer is left advertising with that interval. -/
theorem C2_first_deadline_fixed_1ms (addr : DeviceAddress) (t : Timer)
    (tx rx : List (Fin 256)) :
    (init_seq addr t tx rx).map (fun r => (r.2.cc0, r.2.running, r.1.ll.state)) =
      some (INIT_FIRST_WAKEUP.total_micros, true,
        .advertising INIT_ADV_INTERVAL INIT_AD_STRUCTURES) ∧
    INIT_FIRST_WAKEUP.total_micros = 1000 :=
  ⟨rfl, rfl⟩

/-- C3: for any sequence of `cfg_timer` calls ending in
`cfg_timer(Some(d))`, the final timer state is fully determined by the
last requested deadline — CC[0] holds its compare value, the stale
compare-event flag is acknowledged, the counter is cleared and the
timer restarted — independent of every earlier call and of the initial
state, so an earlier deadline never governs the next firing. -/
theorem C3_last_write_wins (calls : List (Option Duration)) (t : Timer)
    (d : Duration) (tf : Timer)
    (h : cfg_timer_seq t (calls ++ [some d]) = some tf) :
    tf = ⟨compare_micros d, 0, false, true⟩ := by
  induction calls generalizing t with
  | nil =>
    simp only [List.nil_append, cfg_timer_seq, List.foldlM, bind_pure] at h
    exact cfg_timer_some_eq t tf d h
  | cons c cs ih =>
    simp only [List.cons_append, cfg_timer_seq, List.foldlM] at h
    cases hc : cfg_timer t c with
    | none => rw [hc] at h; exact Option.noConfusion h
    | some t1 =>
      rw [hc] at h
      simp only [Option.bind_eq_bind, Option.some_bind] at h
      exact ih t1 h

/-- C3 witness: a 5 ms deadline, then a stop, then a 1 s deadline — the
final state is exactly the one the 1 s deadline determines. -/
theorem C3_witness :
    cfg_timer_seq ⟨0, 0, false, false⟩
        ([some ⟨0, 5000000⟩, none] ++ [some ⟨1, 0⟩]) = some ⟨1000000, 0, false, true⟩ ∧
    (⟨1000000, 0, false, true⟩ : Timer) = ⟨compare_micros ⟨1, 0⟩, 0, false, true⟩ :=
  ⟨by decide,
    C3_last_write_wins [some ⟨0, 5000000⟩, none] ⟨0, 0, false, false⟩ ⟨1, 0⟩
      ⟨1000000, 0, false, true⟩ (by decide)⟩

/-- C6: every deadline yielded by the baseband is fed back into the
timer service — the RADIO handler reprograms TIMER0 with exactly the
deadline `interrupt()` returned, and the TIMER0 handler passes whatever
`update()` returned straight to `cfg_timer`. -/
theorem C6_deadlines_fed_back (t : Timer) (d : Duration) (bb bb2 : Baseband)
    (t2 : Timer) (h : radio_timer_handler bb t = some (bb2, t2)) :
    radio_handler (some d) t = cfg_timer t (some d) ∧
    bb2 = bb.update.1 ∧ cfg_timer t bb.update.2 = some t2 := by
  simp only [radio_timer_handler] at h
  cases hc : cfg_timer t bb.update.2 with
  | none => rw [hc] at h; exact Option.noConfusion h
  | some tx =>
    rw [hc] at h
    simp only [Option.map_some'] at h
    cases h
    exact ⟨rfl, rfl, rfl⟩

/-- C6 witness: an advertising baseband returning a 50 ms deadline — the
TIMER0 handler programs exactly 50 000 µs. -/
theorem C6_witness :
    radio_handler (some ⟨0, 50000000⟩) ⟨0, 0, false, false⟩ =
      cfg_timer ⟨0, 0, false, false⟩ (some ⟨0, 50000000⟩) ∧
    Baseband.new (BleRadio.new []) []
        ⟨⟨[], .public⟩, .advertising ⟨0, 50000000⟩ [], 1⟩ =
      (Baseband.new (BleRadio.new []) []
        ⟨⟨[], .public⟩, .advertising ⟨0, 50000000⟩ [], 0⟩).update.1 ∧
    cfg_timer ⟨0, 0, false, false⟩
        (Baseband.new (BleRadio.new []) []
          ⟨⟨[], .public⟩, .advertising ⟨0, 50000000⟩ [], 0⟩).update.2 =
      some ⟨50000, 0, false, true⟩ :=
  C6_deadlines_fed_back ⟨0, 0, false, false⟩ ⟨0, 50000000⟩
    (Baseband.new (BleRadio.new []) [] ⟨⟨[], .public⟩, .advertising ⟨0, 50000000⟩ [], 0⟩)
    (Baseband.new (BleRadio.new []) [] ⟨⟨[], .public⟩, .advertising ⟨0, 50000000⟩ [], 1⟩)
    ⟨50000, 0, false, true⟩ (by decide)

/-- C7: one spurious invocation of the TIMER0 handler right after any
successful `cfg_timer` (the documented stale-latch race) leaves the
link-layer behavioral state and identity intact and advances the
advertising event counter by at most one — no corruption, no double
advance. -/
theorem C7_extra_fire_safe (t t1 : Timer) (dopt : Option Duration) (bb : Baseband)
    (s2 : Baseband × Timer)
    (h1 : cfg_timer t dopt = some t1)
    (h2 : radio_timer_handler bb t1 = some s2) :
    s2.1.ll.state = bb.ll.state ∧ s2.1.ll.addr = bb.ll.addr ∧
    s2.1.ll.advCounter ≤ bb.ll.advCounter + 1 := by
  simp only [radio_timer_handler] at h2
  cases hc : cfg_timer t1 bb.update.2 with
  | none => rw [hc] at h2; exact Option.noConfusion h2
  | some tx =>
    rw [hc] at h2
    simp only [Option.map_some'] at h2
    cases h2
    refine ⟨?_, ?_, ?_⟩ <;>
      simp only [Baseband.update, LinkLayer.on_timer_event] <;>
      rcases hs : bb.ll.state with _ | ⟨iv, pl⟩ <;> simp [hs]

/-- C7 witness: a stop reprogram followed by one spurious timer-handler
run against an advertising baseband — state and address preserved,
counter advanced by exactly one. -/
theorem C7_witness :
    ((Baseband.new (BleRadio.new []) []
          ⟨⟨[], .public⟩, .advertising ⟨0, 100000000⟩ [], 6⟩,
        (⟨100000, 0, false, true⟩ : Timer)) :
          Baseband × Timer).1.ll.state =
      (Baseband.new (BleRadio.new []) []
        ⟨⟨[], .public⟩, .advertising ⟨0, 100000000⟩ [], 5⟩).ll.state ∧
    ((Baseband.new (BleRadio.new []) []
          ⟨⟨[], .public⟩, .advertising ⟨0, 100000000⟩ [], 6⟩,
        (⟨100000, 0, false, true⟩ : Timer)) :
          Baseband × Timer).1.ll.addr =
      (Baseband.new (BleRadio.new []) []
        ⟨⟨[], .public⟩, .advertising ⟨0, 100000000⟩ [], 5⟩).ll.addr ∧
    ((Baseband.new (BleRadio.new []) []
          ⟨⟨[], .public⟩, .advertising ⟨0, 100000000⟩ [], 6⟩,
        (⟨100000, 0, false, true⟩ : Timer)) :
          Baseband × Timer).1.ll.advCounter ≤
      (Baseband.new (BleRadio.new []) []
        ⟨⟨[], .public⟩, .advertising ⟨0, 100000000⟩ [], 5⟩).ll.advCounter + 1 :=
  C7_extra_fire_safe ⟨0, 0, false, false⟩ ⟨0, 0, false, false⟩ none
    (Baseband.new (BleRadio.new []) [] ⟨⟨[], .public⟩, .advertising ⟨0, 100000000⟩ [], 5⟩)
    (Baseband.new (BleRadio.new []) [] ⟨⟨[], .public⟩, .advertising ⟨0, 100000000⟩ [], 6⟩,
      ⟨100000, 0, false, true⟩)
    (by decide) (by decide)

/-- C8: `init` allocates the two fixed packet buffers of length
`MAX_PDU_SIZE + 1`; the baseband it constructs hands the TX buffer to
the radio driver and keeps the RX buffer separately, each of length
`MAX_PDU_SIZE + 1`. -/
theorem C8_two_packet_buffers (m : Nat) (addr : DeviceAddress) (t : Timer)
    (bb : Baseband) (t2 : Timer)
    (h : init_seq addr t (mk_packet_buffer m) (mk_packet_buffer m) = some (bb, t2)) :
    bb.radio.txBuf = mk_packet_buffer m ∧ bb.rxBuf = mk_packet_buffer m ∧
    bb.radio.txBuf.length = m + 1 ∧ bb.rxBuf.length = m + 1 := by
  unfold init_seq at h
  rw [init_cfg_timer_eval] at h
  simp only [Option.map_some'] at h
  cases h
  refine ⟨rfl, rfl, ?_, ?_⟩ <;> simp [mk_packet_buffer, Baseband.new, BleRadio.new]

/-- C8 witness: with `MAX_PDU_SIZE = 2`, both constructed buffers are
`[0, 0, 0]` of length 3. -/
theorem C8_witness :
    (Baseband.new (BleRadio.new (mk_packet_buffer 2)) (mk_packet_buffer 2)
        ⟨⟨[], .public⟩, .advertising INIT_ADV_INTERVAL INIT_AD_STRUCTURES, 0⟩).radio.txBuf =
      mk_packet_buffer 2 ∧
    (Baseband.new (BleRadio.new (mk_packet_buffer 2)) (mk_packet_buffer 2)
        ⟨⟨[], .public⟩, .advertising INIT_ADV_INTERVAL INIT_AD_STRUCTURES, 0⟩).rxBuf =
      mk_packet_buffer 2 ∧
    (Baseband.new (BleRadio.new (mk_packet_buffer 2)) (mk_packet_buffer 2)
        ⟨⟨[], .public⟩, .advertising INIT_ADV_INTERVAL INIT_AD_STRUCTURES, 0⟩).radio.txBuf.length =
      2 + 1 ∧
    (Baseband.new (BleRadio.new (mk_packet_buffer 2)) (mk_packet_buffer 2)
        ⟨⟨[], .public⟩, .advertising INIT_ADV_INTERVAL INIT_AD_STRUCTURES, 0⟩).rxBuf.length =
      2 + 1 :=
  C8_two_packet_buffers 2 ⟨[], .public⟩ ⟨0, 0, false, false⟩
    (Baseband.new (BleRadio.new (mk_packet_buffer 2)) (mk_packet_buffer 2)
      ⟨⟨[], .public⟩, .advertising INIT_ADV_INTERVAL INIT_AD_STRUCTURES, 0⟩)
    ⟨1000, 0, false, true⟩ (by decide)

/-- C9: `init` configures TIMER0 as a 32-bit counter at 1 MHz
(prescaler 4 over the 16 MHz base clock) with the COMPARE0 interrupt
enabled and the CLEAR and STOP shortcuts on COMPARE0, so any tick that
raises an interrupt leaves the timer stopped, and a stopped timer never
raises another interrupt over any number of ticks. -/
theorem C9_one_shot_timer :
    init_timer_config.bitmode = 32 ∧
    init_timer_config.tick_freq_hz = 1000000 ∧
    init_timer_config.intenCompare0 = true ∧
    init_timer_config.shortCompare0Clear = true ∧
    init_timer_config.shortCompare0Stop = true ∧
    (∀ t, (tick init_timer_config t).2 = true →
      (tick init_timer_config t).1.running = false) ∧
    (∀ t n, t.running = false → tickN init_timer_config n t = (t, false)) := by
  refine ⟨rfl, rfl, rfl, rfl, rfl, ?_, ?_⟩
  · intro t h
    by_cases hr : t.running
    · by_cases hcmp : (t.counter + 1) % 4294967296 = t.cc0 % 4294967296
      · simp [tick, init_timer_config, hr, hcmp]
      · simp [tick, init_timer_config, hr, hcmp] at h
    · simp [tick, init_timer_config, hr] at h
  · intro t n h
    exact tickN_stopped init_timer_config t h n

/-- C9 witness: a running timer one tick before its compare value fires
and is left stopped; a stopped timer stays inert for three ticks. -/
theorem C9_witness :
    (tick init_timer_config ⟨5, 4, false, true⟩).1.running = false ∧
    tickN init_timer_config 3 ⟨5, 0, true, false⟩ = (⟨5, 0, true, false⟩, false) :=
  ⟨C9_one_shot_timer.2.2.2.2.2.1 ⟨5, 4, false, true⟩ (by decide),
    C9_one_shot_timer.2.2.2.2.2.2 ⟨5, 0, true, false⟩ 3 (by decide)⟩

/-- C10: when `interrupt()` yields no deadline, the RADIO handler leaves
TIMER0 completely untouched; when `update()` yields no deadline, the
TIMER0 handler stops and clears the timer and acknowledges the stale
compare event. -/
theorem C10_none_deadline_frame (t : Timer) (bb : Baseband) :
    radio_handler none t = some t ∧
    (bb.update.2 = none →
      radio_timer_handler bb t =
        some (bb.update.1,
          { t with running := false, counter := 0, eventCompare0 := false })) := by
  refine ⟨rfl, fun h => ?_⟩
  simp [radio_timer_handler, h, cfg_timer]

/-- C10 witness: an idle baseband (whose `update()` returns no deadline)
run against a pending timer — the handler stops and clears it. -/
theorem C10_witness :
    radio_timer_handler
        (Baseband.new (BleRadio.new []) [] (LinkLayer.new (DeviceAddress.new [] .public)))
        ⟨7, 3, true, true⟩ =
      some (Baseband.new (BleRadio.new []) [] (LinkLayer.new (DeviceAddress.new [] .public)),
        ⟨7, 0, false, false⟩) :=
  (C10_none_deadline_frame ⟨7, 3, true, true⟩
    (Baseband.new (BleRadio.new []) [] (LinkLayer.new (DeviceAddress.new [] .public)))).2
    (by decide)
